import Mathlib

/-!
Verification development for the Transformer repository (three model-definition
notebooks). Tensors are shallowly embedded as functions from finite index
types to real numbers; stateful PyTorch modules become explicit parameter
records, and Python failures (AttributeError, TypeError, AssertionError)
become values of an explicit error type inside the Except monad.

Dropout modules are modelled in evaluation mode (identity), matching the
deterministic semantics the specification assigns to inference; the claims
treated here are all about the deterministic data path.
-/

namespace TransformerModel

/-! ### Shared linear algebra

PyTorch nn.Linear(inF, outF) computes y = x Aᵀ + b with A of shape
(outF, inF); without bias the b term is absent. -/

/-- Linear layer without bias, as in nn.Linear(feature_size, head_size, bias=False). -/
def linearNB {o i : ℕ} (W : Fin o → Fin i → ℝ) (v : Fin i → ℝ) : Fin o → ℝ :=
  fun r => ∑ c, W r c * v c

/-- Linear layer with bias over an arbitrary finite input index type
(used for the concatenated multi-head feature axis). -/
def linearF {ι : Type} [Fintype ι] {o : ℕ} (W : Fin o → ι → ℝ) (b : Fin o → ℝ)
    (v : ι → ℝ) : Fin o → ℝ :=
  fun r => (∑ c, W r c * v c) + b r

/-! ### Notebook 0: class Attention

Attention.__init__ stores three bias-free projections, the scale
head_size ** -0.5 and a causal flag. Attention.forward computes
scores = (q kᵀ) * scale, applies masked_fill(~tril, -inf) when causal,
then masked_fill(mask == 0, -inf) for a user mask of shape (batch, seq_len)
broadcast over the query axis, takes F.softmax over the key axis and
multiplies by the values. A score of -inf is represented by the value none
of Option ℝ; IEEE exp(-inf) = 0 becomes mexp none = 0. -/

structure AttentionParams (F H : ℕ) where
  Wk : Fin H → Fin F → ℝ
  Wq : Fin H → Fin F → ℝ
  Wv : Fin H → Fin F → ℝ
  causal : Bool

/-- The scale factor head_size ** -0.5. -/
noncomputable def attnScale (H : ℕ) : ℝ := 1 / Real.sqrt H

/-- Raw scaled dot-product scores torch.matmul(q, k.transpose(-2, -1)) * self.scale. -/
noncomputable def attnScores {B L F H : ℕ} (p : AttentionParams F H)
    (x : Fin B → Fin L → Fin F → ℝ) : Fin B → Fin L → Fin L → ℝ :=
  fun b i j => (∑ h, linearNB p.Wq (x b i) h * linearNB p.Wk (x b j) h) * attnScale H

/-- Which (query i, key j) positions keep a finite score: the causal
masked_fill forbids j > i, the user masked_fill forbids keys j with
mask value 0 (the (batch, seq_len) mask is broadcast over queries). -/
def attnAllowed {B L : ℕ} (causal : Bool) (mask : Option (Fin B → Fin L → Bool)) :
    Fin B → Fin L → Fin L → Bool :=
  fun b i j =>
    (!causal || decide ((j : ℕ) ≤ (i : ℕ))) &&
      (match mask with
       | none => true
       | some m => m b j)

/-- Scores after the two masked_fill(-inf) steps; none stands for -inf. -/
noncomputable def maskedScores {B L F H : ℕ} (p : AttentionParams F H)
    (mask : Option (Fin B → Fin L → Bool)) (x : Fin B → Fin L → Fin F → ℝ) :
    Fin B → Fin L → Fin L → Option ℝ :=
  fun b i j =>
    if attnAllowed p.causal mask b i j then some (attnScores p x b i j) else none

/-- Exponential extended to -inf scores, exactly as IEEE exp: exp(-inf) = 0. -/
noncomputable def mexp : Option ℝ → ℝ
  | none => 0
  | some r => Real.exp r

/-- Post-softmax attention weights F.softmax(scores, dim=-1). -/
noncomputable def attnWeights {B L F H : ℕ} (p : AttentionParams F H)
    (mask : Option (Fin B → Fin L → Bool)) (x : Fin B → Fin L → Fin F → ℝ) :
    Fin B → Fin L → Fin L → ℝ :=
  fun b i j =>
    mexp (maskedScores p mask x b i j) / ∑ j2, mexp (maskedScores p mask x b i j2)

/-- Attention.forward returns torch.matmul(attn_weights, v) and nothing else. -/
noncomputable def attentionForward {B L F H : ℕ} (p : AttentionParams F H)
    (mask : Option (Fin B → Fin L → Bool)) (x : Fin B → Fin L → Fin F → ℝ) :
    Fin B → Fin L → Fin H → ℝ :=
  fun b i h => ∑ j, attnWeights p mask x b i j * linearNB p.Wv (x b j) h

/-! ### Helper lemmas about masked softmax -/

lemma mexp_nonneg (s : Option ℝ) : 0 ≤ mexp s := by
  cases s with
  | none => simp [mexp]
  | some r => exact (Real.exp_pos r).le

lemma attn_denominator_pos {B L F H : ℕ} (p : AttentionParams F H)
    (mask : Option (Fin B → Fin L → Bool)) (x : Fin B → Fin L → Fin F → ℝ)
    (b : Fin B) (i : Fin L)
    (hrow : ∃ j0, attnAllowed p.causal mask b i j0 = true) :
    0 < ∑ j2, mexp (maskedScores p mask x b i j2) := by
  obtain ⟨j0, hj0⟩ := hrow
  refine Finset.sum_pos' (fun j _ => mexp_nonneg _) ⟨j0, Finset.mem_univ _, ?_⟩
  simp only [maskedScores, hj0, if_true, mexp]
  exact Real.exp_pos _

/-- Claim C1: in causal mode, for every sequence length, every batch entry,
every user mask whose combined row keeps at least one key position, and
every query i and key j with j > i, the post-softmax attention weight from
i to j is exactly 0 (and the softmax denominator is positive, so the row is
well defined). -/
theorem causal_weights_upper_zero {B L F H : ℕ} (p : AttentionParams F H)
    (hc : p.causal = true) (mask : Option (Fin B → Fin L → Bool))
    (x : Fin B → Fin L → Fin F → ℝ) (b : Fin B) (i j : Fin L)
    (hij : (i : ℕ) < (j : ℕ))
    (hrow : ∃ j0, attnAllowed p.causal mask b i j0 = true) :
    attnWeights p mask x b i j = 0 ∧
      0 < ∑ j2, mexp (maskedScores p mask x b i j2) := by
  have hden := attn_denominator_pos p mask x b i hrow
  refine ⟨?_, hden⟩
  have hall : attnAllowed p.causal mask b i j = false := by
    have hnotle : ¬ ((j : ℕ) ≤ (i : ℕ)) := Nat.not_le.mpr hij
    simp [attnAllowed, hc, hnotle]
  simp only [attnWeights, maskedScores, hall, if_false, mexp]
  exact zero_div _

/-- Concrete causal attention parameters for the length-4 toy check. -/
noncomputable def pWit1 : AttentionParams 1 1 :=
  ⟨fun _ _ => 0, fun _ _ => 0, fun _ _ => 0, true⟩

/-- Absent user mask at batch 1, sequence length 4. -/
def mWit1 : Option (Fin 1 → Fin 4 → Bool) := none

/-- Concrete input tensor for the length-4 toy check. -/
noncomputable def xWit1 : Fin 1 → Fin 4 → Fin 1 → ℝ := fun _ _ _ => 0

/-- Witness for C1 at sequence length 4, query 1, key 2, no user mask. -/
theorem causal_weights_upper_zero_witness :
    (pWit1.causal = true) ∧
    (((1 : Fin 4) : ℕ) < ((2 : Fin 4) : ℕ)) ∧
    (∃ j0, attnAllowed pWit1.causal mWit1 0 1 j0 = true) ∧
    attnWeights pWit1 mWit1 xWit1 0 1 2 = 0 :=
  ⟨rfl, by decide, by decide,
    (causal_weights_upper_zero pWit1 rfl mWit1 xWit1 0 1 2 (by decide) (by decide)).1⟩

/-! ### Notebook 1: class MultiHeadAttentionBlock, static method attention

attention(query, key, value, mask, dropout) computes
(query @ key.transpose(-2, -1)) / math.sqrt(d_k), applies
masked_fill_(mask == 0, -1e9) when a mask is supplied (the mask broadcasts
over batch and head; we model it at full (batch, h, seq, seq) shape),
applies softmax over the key axis, optionally dropout (evaluation mode:
identity), and returns the pair (attention_scores @ value, attention_scores). -/

/-- Raw scores (query @ keyᵀ) / math.sqrt(d_k) on (batch, h, seq_len, d_k) inputs. -/
noncomputable def mhabRawScores {B Hh L dk : ℕ}
    (q k : Fin B → Fin Hh → Fin L → Fin dk → ℝ) :
    Fin B → Fin Hh → Fin L → Fin L → ℝ :=
  fun b h i j => (∑ d, q b h i d * k b h j d) / Real.sqrt dk

/-- Scores after masked_fill_(mask == 0, -1e9). -/
noncomputable def mhabMaskedScores {B Hh L dk : ℕ}
    (mask : Option (Fin B → Fin Hh → Fin L → Fin L → Bool))
    (q k : Fin B → Fin Hh → Fin L → Fin dk → ℝ) :
    Fin B → Fin Hh → Fin L → Fin L → ℝ :=
  fun b h i j =>
    match mask with
    | none => mhabRawScores q k b h i j
    | some m => if m b h i j then mhabRawScores q k b h i j else -(10 : ℝ) ^ (9 : ℕ)

/-- Row-wise softmax over the key axis. -/
noncomputable def softmaxRow {L : ℕ} (s : Fin L → ℝ) : Fin L → ℝ :=
  fun j => Real.exp (s j) / ∑ j2, Real.exp (s j2)

/-- The tensor attention_scores after masking and softmax(dim = -1). -/
noncomputable def mhabAttnScores {B Hh L dk : ℕ}
    (mask : Option (Fin B → Fin Hh → Fin L → Fin L → Bool))
    (q k : Fin B → Fin Hh → Fin L → Fin dk → ℝ) :
    Fin B → Fin Hh → Fin L → Fin L → ℝ :=
  fun b h i => softmaxRow (mhabMaskedScores mask q k b h i)

/-- MultiHeadAttentionBlock.attention returns the pair
(attention_scores @ value, attention_scores); dropout in evaluation mode. -/
noncomputable def mhabAttention {B Hh L dk : ℕ}
    (q k v : Fin B → Fin Hh → Fin L → Fin dk → ℝ)
    (mask : Option (Fin B → Fin Hh → Fin L → Fin L → Bool)) :
    (Fin B → Fin Hh → Fin L → Fin dk → ℝ) × (Fin B → Fin Hh → Fin L → Fin L → ℝ) :=
  (fun b h i d => ∑ j, mhabAttnScores mask q k b h i j * v b h j d,
   mhabAttnScores mask q k)

/-- Claim C2: after masking and softmax, every attention row over the key
axis sums to 1 and has nonnegative entries. Part one is the notebook-0
Attention weights under the stated precondition that the row keeps at least
one key position; part two is the notebook-1 MultiHeadAttentionBlock
attention scores, whose finite -1e9 fill makes the precondition automatic. -/
theorem softmax_rows_sum_one :
    (∀ (B L F H : ℕ) (p : AttentionParams F H)
       (mask : Option (Fin B → Fin L → Bool)) (x : Fin B → Fin L → Fin F → ℝ)
       (b : Fin B) (i : Fin L),
       (∃ j0, attnAllowed p.causal mask b i j0 = true) →
       (∑ j, attnWeights p mask x b i j) = 1 ∧
         ∀ j, 0 ≤ attnWeights p mask x b i j) ∧
    (∀ (B Hh L dk : ℕ) (mask : Option (Fin B → Fin Hh → Fin L → Fin L → Bool))
       (q k : Fin B → Fin Hh → Fin L → Fin dk → ℝ)
       (b : Fin B) (h : Fin Hh) (i : Fin L),
       (∑ j, mhabAttnScores mask q k b h i j) = 1 ∧
         ∀ j, 0 ≤ mhabAttnScores mask q k b h i j) := by
  constructor
  · intro B L F H p mask x b i hrow
    have hden := attn_denominator_pos p mask x b i hrow
    constructor
    · simp only [attnWeights]
      rw [← Finset.sum_div, div_self (ne_of_gt hden)]
    · intro j
      exact div_nonneg (mexp_nonneg _) hden.le
  · intro B Hh L dk mask q k b h i
    have hden : 0 < ∑ j2, Real.exp (mhabMaskedScores mask q k b h i j2) := by
      have : (Finset.univ : Finset (Fin L)).Nonempty := ⟨i, Finset.mem_univ i⟩
      exact Finset.sum_pos (fun j _ => Real.exp_pos _) this
    constructor
    · simp only [mhabAttnScores, softmaxRow]
      rw [← Finset.sum_div, div_self (ne_of_gt hden)]
    · intro j
      exact div_nonneg (Real.exp_pos _).le hden.le

/-- Witness for C2: batch 1, one head, sequence length 2, zero inputs;
the notebook-0 row at query 0 and the notebook-1 row at query 0 both sum to 1. -/
theorem softmax_rows_sum_one_witness :
    (∃ j0, attnAllowed pWit1.causal (none : Option (Fin 1 → Fin 4 → Bool)) 0 1 j0 = true) ∧
    (∑ j, attnWeights pWit1 none xWit1 0 1 j) = 1 ∧
    (∑ j, mhabAttnScores (none : Option (Fin 1 → Fin 1 → Fin 2 → Fin 2 → Bool))
        (fun _ _ _ _ => (0 : ℝ) : Fin 1 → Fin 1 → Fin 2 → Fin 2 → ℝ)
        (fun _ _ _ _ => (0 : ℝ) : Fin 1 → Fin 1 → Fin 2 → Fin 2 → ℝ) 0 0 0 j) = 1 :=
  ⟨by decide,
   (softmax_rows_sum_one.1 1 4 1 1 pWit1 none xWit1 0 1 (by decide)).1,
   (softmax_rows_sum_one.2 1 1 2 2 none
     (fun _ _ _ _ => (0 : ℝ)) (fun _ _ _ _ => (0 : ℝ)) 0 0 0).1⟩

/-! ### Notebook 1: class LayerNormalization (forward)

forward computes mean = x.mean(dim = -1, keepdim=True) and
std = x.std(dim = -1, keepdim=True) (torch.std: Bessel-corrected, divisor
n - 1) and returns self.alpha * (x - mean) / (std + self.eps) + self.bias.
The learnable scalars alpha and bias and the constructor argument eps form
the state record. -/

structure LNState where
  alpha : ℝ
  bias : ℝ
  eps : ℝ

/-- Mean over the feature axis, x.mean(dim = -1). -/
noncomputable def vmean {n : ℕ} (x : Fin n → ℝ) : ℝ := (∑ i, x i) / n

/-- Standard deviation over the feature axis, x.std(dim = -1):
torch.std divides by n - 1 (unbiased estimator) before the square root. -/
noncomputable def vstd {n : ℕ} (x : Fin n → ℝ) : ℝ :=
  Real.sqrt ((∑ i, (x i - vmean x) ^ 2) / ((n - 1 : ℕ) : ℝ))

/-- LayerNormalization.forward: alpha * (x - mean) / (std + eps) + bias. -/
noncomputable def layerNormForward {n : ℕ} (s : LNState) (x : Fin n → ℝ) : Fin n → ℝ :=
  fun i => s.alpha * (x i - vmean x) / (vstd x + s.eps) + s.bias

/-- Population variance over the feature axis (divisor n), used by the
wording of claim C6. -/
noncomputable def vvariance {n : ℕ} (x : Fin n → ℝ) : ℝ :=
  (∑ i, (x i - vmean x) ^ 2) / n

/-- The normalization exactly as claim C6 words it: standardize with the
mean and the variance of the feature axis, the epsilon term added to the
variance inside the denominator, then scale and shift. -/
noncomputable def layerNormSpecC6 {n : ℕ} (s : LNState) (x : Fin n → ℝ) : Fin n → ℝ :=
  fun i => s.alpha * ((x i - vmean x) / Real.sqrt (vvariance x + s.eps)) + s.bias

/-- Concrete feature vector (0, 2) separating the two normalization formulas. -/
noncomputable def xC6 : Fin 2 → ℝ := ![0, 2]

/-- Concrete LayerNormalization state alpha = 1, bias = 0, eps = 1. -/
noncomputable def sC6 : LNState := ⟨1, 0, 1⟩

lemma vmean_xC6 : vmean xC6 = 1 := by
  norm_num [vmean, xC6, Fin.sum_univ_two]

lemma vstd_xC6 : vstd xC6 = Real.sqrt 2 := by
  unfold vstd
  rw [vmean_xC6]
  norm_num [xC6, Fin.sum_univ_two]

lemma vvariance_xC6 : vvariance xC6 = 1 := by
  unfold vvariance
  rw [vmean_xC6]
  norm_num [xC6, Fin.sum_univ_two]

/-- Counterexample to claim C6 as stated: on the feature vector (0, 2) with
alpha = 1, bias = 0, eps = 1 the code divides by std + eps = sqrt 2 + 1,
while the claimed formula divides by sqrt(variance + eps) = sqrt 2, and the
two results differ at feature 0. -/
theorem layerNorm_eps_outside_sqrt :
    layerNormForward sC6 xC6 0 ≠ layerNormSpecC6 sC6 xC6 0 := by
  have hs2 : 0 < Real.sqrt 2 := Real.sqrt_pos.mpr (by norm_num)
  have hcode : layerNormForward sC6 xC6 0 = -1 / (Real.sqrt 2 + 1) := by
    simp only [layerNormForward]
    rw [vmean_xC6, vstd_xC6]
    norm_num [sC6, xC6]
  have hspec : layerNormSpecC6 sC6 xC6 0 = -1 / Real.sqrt 2 := by
    simp only [layerNormSpecC6]
    rw [vmean_xC6, vvariance_xC6]
    norm_num [sC6, xC6]
  rw [hcode, hspec]
  intro h
  rw [div_eq_div_iff (by positivity : Real.sqrt 2 + 1 ≠ 0) (ne_of_gt hs2)] at h
  linarith

/-- The normalization as amended: standardize with the mean and the
Bessel-corrected standard deviation of the feature axis, the epsilon term
added to the standard deviation in the denominator, then scale and shift. -/
noncomputable def layerNormAmended {n : ℕ} (s : LNState) (x : Fin n → ℝ) : Fin n → ℝ :=
  fun i => s.alpha * ((x i - vmean x) / (vstd x + s.eps)) + s.bias

/-- Claim C6 as amended: for every input vector the forward computation
equals standardization by mean and (unbiased) standard deviation with
epsilon added to the standard deviation, followed by scale and shift. -/
theorem layerNorm_forward_eq_amended :
    ∀ (n : ℕ) (s : LNState) (x : Fin n → ℝ),
      layerNormForward s x = layerNormAmended s x := by
  intro n s x
  funext i
  simp [layerNormForward, layerNormAmended, mul_div_assoc]

/-! ### Notebook 1: class ResidualConnection (forward)

forward(x, sublayer) returns x + self.dropout(sublayer(self.norm(x))).
The norm is a LayerNormalization over the feature axis of every position;
dropout is kept as an explicit tensor-to-tensor function argument. -/

/-- The stored LayerNormalization applied at every (batch, position). -/
noncomputable def lnMap {B L n : ℕ} (s : LNState) (x : Fin B → Fin L → Fin n → ℝ) :
    Fin B → Fin L → Fin n → ℝ :=
  fun b l => layerNormForward s (x b l)

/-- ResidualConnection.forward: x + dropout(sublayer(norm(x))). -/
noncomputable def residualConnectionForward {B L n : ℕ} (s : LNState)
    (drop : (Fin B → Fin L → Fin n → ℝ) → (Fin B → Fin L → Fin n → ℝ))
    (x : Fin B → Fin L → Fin n → ℝ)
    (sublayer : (Fin B → Fin L → Fin n → ℝ) → (Fin B → Fin L → Fin n → ℝ)) :
    Fin B → Fin L → Fin n → ℝ :=
  fun b l i => x b l i + drop (sublayer (lnMap s x)) b l i

/-- The wrapper as the specification words it, stage by stage: normalize the
input, pass the result through the sublayer, apply dropout, then add the
original unnormalized input back. -/
noncomputable def residualSpec {B L n : ℕ} (s : LNState)
    (drop : (Fin B → Fin L → Fin n → ℝ) → (Fin B → Fin L → Fin n → ℝ))
    (x : Fin B → Fin L → Fin n → ℝ)
    (sublayer : (Fin B → Fin L → Fin n → ℝ) → (Fin B → Fin L → Fin n → ℝ)) :
    Fin B → Fin L → Fin n → ℝ :=
  let normalized := lnMap s x
  let transformed := sublayer normalized
  let regularized := drop transformed
  fun b l i => x b l i + regularized b l i

/-- Claim C3: for every input, sublayer, dropout and normalization state,
ResidualConnection.forward returns exactly x + dropout(sublayer(normalize(x))):
pre-normalization order, with the skip connection adding back the original
unnormalized input. -/
theorem residual_pre_norm :
    ∀ (B L n : ℕ) (s : LNState)
      (drop : (Fin B → Fin L → Fin n → ℝ) → (Fin B → Fin L → Fin n → ℝ))
      (x : Fin B → Fin L → Fin n → ℝ)
      (sublayer : (Fin B → Fin L → Fin n → ℝ) → (Fin B → Fin L → Fin n → ℝ)),
      residualConnectionForward s drop x sublayer = residualSpec s drop x sublayer := by
  intro B L n s drop x sublayer
  rfl

/-! ### Claim C7: what the two attention implementations return

MultiHeadAttentionBlock.attention ends with
return (attention_scores @ value), attention_scores, while notebook-0
Attention.forward ends with return output alone: the post-softmax matrix is
a local variable that is not part of the returned value. -/

/-- Causal single-head parameters with zero value projection and identity
query/key projections on one feature, used to show that two calls with
different probability matrices return the same value. -/
noncomputable def pC7 : AttentionParams 1 1 :=
  ⟨fun _ _ => 1, fun _ _ => 1, fun _ _ => 0, true⟩

/-- First input: both positions carry feature value 0. -/
noncomputable def x7a : Fin 1 → Fin 2 → Fin 1 → ℝ := fun _ _ _ => 0

/-- Second input: position 0 carries 0, position 1 carries 1. -/
noncomputable def x7b : Fin 1 → Fin 2 → Fin 1 → ℝ :=
  fun _ i _ => if i = 1 then 1 else 0

lemma attnWeights_x7a : attnWeights pC7 none x7a 0 1 0 = 1 / 2 := by
  simp [attnWeights, maskedScores, attnAllowed, attnScores, attnScale, linearNB,
    mexp, pC7, x7a, Fin.sum_univ_two, Fin.sum_univ_one, Real.sqrt_one, Real.exp_zero]
  norm_num

lemma attnWeights_x7b : attnWeights pC7 none x7b 0 1 0 = 1 / (1 + Real.exp 1) := by
  simp [attnWeights, maskedScores, attnAllowed, attnScores, attnScale, linearNB,
    mexp, pC7, x7b, Fin.sum_univ_two, Fin.sum_univ_one, Real.sqrt_one, Real.exp_zero]

/-- Counterexample to claim C7 as stated: the notebook-0 Attention.forward
return value does not expose the post-softmax probability matrix. Two calls
whose probability matrices differ at the (query 1, key 0) entry return
identical values, so no caller can recover the probabilities from what
forward returns. -/
theorem attentionForward_no_probs :
    attentionForward pC7 none x7a = attentionForward pC7 none x7b ∧
    attnWeights pC7 none x7a 0 1 0 ≠ attnWeights pC7 none x7b 0 1 0 := by
  constructor
  · funext b i h
    simp [attentionForward, linearNB, pC7]
  · rw [attnWeights_x7a, attnWeights_x7b]
    have he : (2.7182818283 : ℝ) < Real.exp 1 := Real.exp_one_gt_d9
    intro h
    rw [div_eq_div_iff (by norm_num : (2 : ℝ) ≠ 0)
      (by positivity : (1 : ℝ) + Real.exp 1 ≠ 0)] at h
    linarith

/-- Claim C7 as amended: MultiHeadAttentionBlock.attention returns both
values: its second component is exactly the post-softmax probability
tensor, and its first component is exactly that probability tensor applied
to the values. Notebook-0 Attention.forward returns only
(probabilities · value). -/
theorem mhabAttention_returns_pair :
    ∀ (B Hh L dk : ℕ) (q k v : Fin B → Fin Hh → Fin L → Fin dk → ℝ)
      (mask : Option (Fin B → Fin Hh → Fin L → Fin L → Bool)),
      (mhabAttention q k v mask).2 = mhabAttnScores mask q k ∧
      (mhabAttention q k v mask).1 =
        (fun b h i d => ∑ j, (mhabAttention q k v mask).2 b h i j * v b h j d) ∧
      ∀ (F2 H2 : ℕ) (p : AttentionParams F2 H2)
        (mask2 : Option (Fin B → Fin L → Bool)) (x : Fin B → Fin L → Fin F2 → ℝ),
        attentionForward p mask2 x =
          fun b i h => ∑ j, attnWeights p mask2 x b i j * linearNB p.Wv (x b j) h := by
  intro B Hh L dk q k v mask
  exact ⟨rfl, rfl, fun _ _ _ _ _ => rfl⟩

/-! ### Python failure model

Attribute names looked up on the torch.nn module, and the runtime errors
the notebooks can raise, are modelled as explicit inductive types so that
construction and call sequences become Except computations. -/

/-- Names the notebooks look up on the torch.nn module. -/
inductive NNName where
  | Parameter | Paremeter | Dropout | Linear | Module | Mpdule
  | ModuleList | Embedding | Sequential | ReLU
deriving DecidableEq

/-- Python runtime errors arising in the notebooks. -/
inductive PyError where
  | attributeError (n : NNName)
  | attributeErrorSelfNorm
  | typeErrorMissingArg
  | typeErrorBoolNotCallable
  | typeErrorSuperDescriptor
  | assertionError
  | zeroDivisionError
  | valueError
deriving DecidableEq

/-- Attribute lookup on torch.nn: Paremeter and Mpdule do not exist. -/
def getattrNN (n : NNName) : Except PyError Unit :=
  match n with
  | NNName.Paremeter => Except.error (PyError.attributeError NNName.Paremeter)
  | NNName.Mpdule => Except.error (PyError.attributeError NNName.Mpdule)
  | _ => Except.ok ()

/-- True exactly when a constructor or call returned without raising. -/
def constructs {β : Type} : Except PyError β → Bool
  | Except.ok _ => true
  | Except.error _ => false

/-! ### Claim C5: multi-head attention construction

Notebook-1 MultiHeadAttentionBlock.__init__(d_model, h, dropout) runs
assert d_model % h == 0 before deriving d_k = d_model // h; with h = 0 the
modulo itself raises ZeroDivisionError, and after the assert and the four
Linear layers the statement self.dropout = nn.Dropout(dropout) raises
ValueError when the probability lies outside [0, 1]. Notebook-0
MultiHeadAttention.__init__(num_heads, head_size, feature_size) builds
num_heads independent Attention heads and one output Linear and performs no
divisibility check at all; each Attention.__init__ evaluates
self.scale = head_size ** -0.5, which raises ZeroDivisionError when
head_size = 0, so the head loop fails exactly when it runs at least once
with head_size = 0. -/

structure MHABConfig where
  h : ℕ
  dk : ℕ
deriving DecidableEq

/-- MultiHeadAttentionBlock.__init__(d_model, h, dropout): d_model % h
(ZeroDivisionError when h = 0), the assert on d_model % h == 0, the four
Linear layers, then nn.Dropout(dropout), which raises ValueError unless
0 <= dropout <= 1. -/
noncomputable def mhaBlockInit (d_model h : ℕ) (dropout : ℝ) :
    Except PyError MHABConfig :=
  if h = 0 then Except.error PyError.zeroDivisionError
  else if d_model % h = 0 then
    if 0 ≤ dropout ∧ dropout ≤ 1 then Except.ok ⟨h, d_model / h⟩
    else Except.error PyError.valueError
  else Except.error PyError.assertionError

structure MHAConfig where
  num_heads : ℕ
  head_size : ℕ
  feature_size : ℕ
deriving DecidableEq

/-- Attention.__init__(feature_size, head_size): three bias-free Linear
layers, then self.scale = head_size ** -0.5, which raises
ZeroDivisionError when head_size = 0 (0.0 cannot be raised to a negative
power). -/
def attentionInit (feature_size head_size : ℕ) : Except PyError Unit :=
  if head_size = 0 then Except.error PyError.zeroDivisionError
  else Except.ok ()

/-- The list comprehension building the heads: Attention(feature_size,
head_size, causal=False) once for every _ in range(num_heads); the first
raising iteration aborts the comprehension. -/
def buildHeads (feature_size head_size : ℕ) : ℕ → Except PyError Unit
  | 0 => Except.ok ()
  | n + 1 =>
    match attentionInit feature_size head_size with
    | Except.error e => Except.error e
    | Except.ok _ => buildHeads feature_size head_size n

/-- Notebook-0 MultiHeadAttention.__init__: the head comprehension, then
the output projection Linear(num_heads * head_size, feature_size); no
divisibility check anywhere. -/
def multiHeadAttentionInit (num_heads head_size feature_size : ℕ) :
    Except PyError MHAConfig :=
  match buildHeads feature_size head_size num_heads with
  | Except.error e => Except.error e
  | Except.ok _ => Except.ok ⟨num_heads, head_size, feature_size⟩

lemma buildHeads_eq (feature_size head_size : ℕ) :
    ∀ n, buildHeads feature_size head_size n =
      if n = 0 ∨ head_size ≠ 0 then Except.ok ()
      else Except.error PyError.zeroDivisionError := by
  intro n
  induction n with
  | zero => simp [buildHeads]
  | succ m ih =>
    by_cases hh : head_size = 0
    · simp [buildHeads, attentionInit, hh]
    · simp [buildHeads, attentionInit, hh, ih]

/-- Counterexample to claim C5 as stated: the notebook-0 multi-head
attention component constructed with num_heads = 3, head_size = 2 and
feature size 7, which 3 does not divide, succeeds at construction instead
of failing. -/
theorem multiHeadAttentionInit_no_check :
    constructs (multiHeadAttentionInit 3 2 7) = true ∧ 7 % 3 ≠ 0 := by
  decide

/-- Claim C5 as amended: the notebook-1 MultiHeadAttentionBlock constructor
succeeds exactly when h is positive, h divides d_model and the dropout
probability lies in [0, 1] (failing with ZeroDivisionError, AssertionError
or ValueError respectively), so a non-dividing head count always fails at
construction; on success the stored head count times the stored per-head
width reconstructs d_model, so the reshape in forward cannot hit a shape
error. The notebook-0 MultiHeadAttention constructor performs no
divisibility check: it succeeds exactly when num_heads = 0 or
head_size is nonzero, the only failure being the ZeroDivisionError of
head_size ** -0.5 inside the head comprehension. -/
theorem mhaBlockInit_characterization :
    ∀ (d_model h : ℕ) (dropout : ℝ),
      (constructs (mhaBlockInit d_model h dropout) = true ↔
        (h ≠ 0 ∧ d_model % h = 0 ∧ 0 ≤ dropout ∧ dropout ≤ 1)) ∧
      (∀ cfg, mhaBlockInit d_model h dropout = Except.ok cfg →
        cfg.h * cfg.dk = d_model) ∧
      (∀ nh hs fs, constructs (multiHeadAttentionInit nh hs fs) = true ↔
        (nh = 0 ∨ hs ≠ 0)) := by
  intro d_model h dropout
  refine ⟨?_, ?_, ?_⟩
  · by_cases h0 : h = 0
    · simp [mhaBlockInit, h0, constructs]
    · by_cases hm : d_model % h = 0
      · by_cases hp : (0 ≤ dropout ∧ dropout ≤ 1)
        · simp [mhaBlockInit, h0, hm, hp, constructs]
        · simp [mhaBlockInit, h0, hm, hp, constructs]
      · simp [mhaBlockInit, h0, hm, constructs]
  · intro cfg hok
    by_cases h0 : h = 0
    · simp [mhaBlockInit, h0] at hok
    · by_cases hm : d_model % h = 0
      · by_cases hp : (0 ≤ dropout ∧ dropout ≤ 1)
        · simp [mhaBlockInit, h0, hm, hp] at hok
          rw [← hok]
          exact Nat.mul_div_cancel' (Nat.dvd_of_mod_eq_zero hm)
        · simp [mhaBlockInit, h0, hm, hp] at hok
      · simp [mhaBlockInit, h0, hm] at hok
  · intro nh hs fs
    by_cases hcond : nh = 0 ∨ hs ≠ 0
    · simp [multiHeadAttentionInit, buildHeads_eq, hcond, constructs]
    · simp [multiHeadAttentionInit, buildHeads_eq, hcond, constructs]

/-- Witness for C5 (amended) at d_model = 8, h = 2, dropout = 1/2:
construction succeeds and the stored configuration satisfies
h * d_k = d_model; and the notebook-0 constructor succeeds at
(num_heads, head_size, feature_size) = (3, 2, 7). -/
theorem mhaBlockInit_characterization_witness :
    mhaBlockInit 8 2 (1 / 2) = Except.ok ⟨2, 4⟩ ∧
    (MHABConfig.mk 2 4).h * (MHABConfig.mk 2 4).dk = 8 ∧
    constructs (multiHeadAttentionInit 3 2 7) = true := by
  have hok : mhaBlockInit 8 2 (1 / 2 : ℝ) = Except.ok ⟨2, 4⟩ := by
    unfold mhaBlockInit
    rw [if_neg (by norm_num : ¬ (2 = 0)), if_pos (by norm_num : 8 % 2 = 0),
      if_pos (by norm_num : (0 : ℝ) ≤ 1 / 2 ∧ (1 / 2 : ℝ) ≤ 1)]
  exact ⟨hok, (mhaBlockInit_characterization 8 2 (1 / 2)).2.1 ⟨2, 4⟩ hok,
    ((mhaBlockInit_characterization 8 2 (1 / 2)).2.2 3 2 7).mpr (by norm_num)⟩

/-! ### Claim C4: notebook-1 DecoderBlock.forward

MultiHeadAttentionBlock.forward is declared as forward(self, q, k, v, mask)
and so requires exactly four positional arguments. DecoderBlock.forward
invokes the sublayers through residual wrappers as
residual(x, lambda x: self.self_attention_block(x, x, tgt_mask)) and
residual(x, lambda x: self.cross_attention_block(x, encoder_output, src_mask)):
both lambdas supply only three arguments, binding the value parameter to
the mask tensor and leaving the mask parameter missing, which raises
TypeError when the wrapper calls the sublayer. -/

/-- The Python call protocol of MultiHeadAttentionBlock.forward: a list of
positional arguments is matched against the four declared parameters
(q, k, v, mask); any other arity raises TypeError. -/
def mhabForwardCall {α : Type} (run : α → α → α → α → α) (args : List α) :
    Except PyError α :=
  match args with
  | [q, k, v, m] => Except.ok (run q k v m)
  | _ => Except.error PyError.typeErrorMissingArg

/-- ResidualConnection.forward with an Except-valued sublayer: the sublayer
is applied to norm(x); if it raises, the wrapper propagates the error,
otherwise the result is x + dropout(sublayer(norm(x))). -/
def residualCallE {α : Type} (norm drop : α → α) (add : α → α → α) (x : α)
    (sub : α → Except PyError α) : Except PyError α := do
  let y ← sub (norm x)
  Except.ok (add x (drop y))

/-- DecoderBlock.forward(x, encoder_output, src_mask, tgt_mask) as written
in the source: three residual wrappers whose first two sublayers call the
four-parameter attention forwards with only three positional arguments. -/
def decoderBlockForward {α : Type} (selfAttn crossAttn : α → α → α → α → α)
    (ff norm drop : α → α) (add : α → α → α)
    (x encoder_output src_mask tgt_mask : α) : Except PyError α := do
  let x1 ← residualCallE norm drop add x
    (fun y => mhabForwardCall selfAttn [y, y, tgt_mask])
  let x2 ← residualCallE norm drop add x1
    (fun y => mhabForwardCall crossAttn [y, encoder_output, src_mask])
  residualCallE norm drop add x2 (fun y => Except.ok (ff y))

/-- Claim C4 (code bug): every DecoderBlock.forward call raises TypeError
in its first residual sublayer, because the self-attention call passes
(x, x, tgt_mask) to the four-parameter forward(q, k, v, mask); the claimed
(q, k, v) = (x, x, x) under tgt_mask computation is never performed. -/
theorem decoderBlockForward_raises :
    ∀ (α : Type) (selfAttn crossAttn : α → α → α → α → α)
      (ff norm drop : α → α) (add : α → α → α)
      (x encoder_output src_mask tgt_mask : α),
      decoderBlockForward selfAttn crossAttn ff norm drop add
        x encoder_output src_mask tgt_mask =
        Except.error PyError.typeErrorMissingArg := by
  intro α selfAttn crossAttn ff norm drop add x encoder_output src_mask tgt_mask
  rfl

/-! ### Claim C9: constructor failures in the encoder/decoder variants

LayerNormalization.__init__ evaluates nn.Paremeter(torch.ones(1)), a
misspelling of nn.Parameter, so it raises AttributeError for every eps.
ResidualConnection.__init__ builds a LayerNormalization; EncoderBlock
builds two ResidualConnections; Encoder evaluates LayerNormalization() in
the statement self.norm - LayerNormalization(); DecoderBlock.__init__
begins with super.__init__() (missing call parentheses on super), raising
TypeError before its nn.Mpdule lookup and ResidualConnection constructions
would; Decoder.__init__ assigns self.norm = LayerNormalization(). -/

/-- LayerNormalization.__init__: stores eps, then evaluates the attribute
nn.Paremeter, which does not exist. The nn.Parameter lookup for self.bias
is never reached. -/
noncomputable def layerNormalizationInit (eps : ℝ) : Except PyError LNState := do
  let _ ← getattrNN NNName.Paremeter
  let _ ← getattrNN NNName.Parameter
  Except.ok ⟨1, 0, eps⟩

/-- ResidualConnection.__init__(dropout): nn.Dropout then LayerNormalization
with the default eps 10 ** -6. -/
noncomputable def residualConnectionInit (dropout : ℝ) : Except PyError Unit := do
  let _ ← getattrNN NNName.Dropout
  let _ ← layerNormalizationInit (1 / 10 ^ 6)
  Except.ok ()

/-- EncoderBlock.__init__: the nn.ModuleList argument builds two
ResidualConnection(dropout) instances. -/
noncomputable def encoderBlockInit (dropout : ℝ) : Except PyError Unit := do
  let _ ← getattrNN NNName.ModuleList
  let _ ← residualConnectionInit dropout
  let _ ← residualConnectionInit dropout
  Except.ok ()

/-- Encoder.__init__: the statement self.norm - LayerNormalization()
evaluates its left operand self.norm first and raises AttributeError, since
norm was never assigned; the LayerNormalization() call on the right (which
would itself raise) is never reached. -/
def encoderInit : Except PyError Unit :=
  Except.error PyError.attributeErrorSelfNorm

/-- The statement super.__init__() calls the unbound descriptor with no
instance argument, raising TypeError immediately. -/
def superInitNoArg : Except PyError Unit :=
  Except.error PyError.typeErrorSuperDescriptor

/-- DecoderBlock.__init__: super.__init__() raises first; the later
nn.Mpdule lookup (another misspelling) and the three
ResidualConnection(dropout) items would raise as well. -/
noncomputable def decoderBlockInit (dropout : ℝ) : Except PyError Unit := do
  let _ ← superInitNoArg
  let _ ← getattrNN NNName.Mpdule
  let _ ← residualConnectionInit dropout
  Except.ok ()

/-- Decoder.__init__: stores the layers then builds LayerNormalization(). -/
noncomputable def decoderInit : Except PyError Unit := do
  let _ ← layerNormalizationInit (1 / 10 ^ 6)
  Except.ok ()

/-- Claim C9: for every eps, LayerNormalization.__init__ of the
encoder/decoder variants raises AttributeError on the misspelt
nn.Paremeter; consequently (and, for DecoderBlock, already at its broken
super call) none of ResidualConnection, EncoderBlock, Encoder,
DecoderBlock, Decoder ever constructs. -/
theorem layerNorm_variant_unconstructible :
    ∀ eps dropout : ℝ,
      layerNormalizationInit eps =
        Except.error (PyError.attributeError NNName.Paremeter) ∧
      constructs (residualConnectionInit dropout) = false ∧
      constructs (encoderBlockInit dropout) = false ∧
      constructs encoderInit = false ∧
      constructs (decoderBlockInit dropout) = false ∧
      constructs decoderInit = false := by
  intro eps dropout
  exact ⟨rfl, rfl, rfl, rfl, rfl, rfl⟩

/-! ### Claim C10: notebook-1/2 PositionalEmbedding.forward

forward computes x + (self.pe[:, :x.shape[1], :]).requires_grad(False).
On a torch tensor, requires_grad is a Bool attribute, not a method
(the in-place method is spelled with a trailing underscore), so calling it
raises TypeError on every input; the addition and the dropout are never
reached. -/

/-- Values a Python attribute lookup can produce in this fragment: the
Bool stored in requires_grad, or a bound method. -/
inductive PyAttr where
  | boolAttr (b : Bool)
  | methodAttr
deriving DecidableEq

/-- The requires_grad attribute of the sliced positional-encoding buffer:
a plain Bool (buffers are created without gradient tracking). -/
def peRequiresGrad : PyAttr := PyAttr.boolAttr false

/-- Calling an attribute value: only methods are callable; calling the
Bool raises TypeError. -/
def pyCallAttr (a : PyAttr) : Except PyError Unit :=
  match a with
  | PyAttr.boolAttr _ => Except.error PyError.typeErrorBoolNotCallable
  | PyAttr.methodAttr => Except.ok ()

/-- PositionalEmbedding.forward: slice the cached buffer, call the
non-callable requires_grad attribute (always raising), then - were it
reached - add and apply dropout. The hypothesis hL slices the cached
(seq_len, d_model) buffer down to the input length. -/
noncomputable def positionalEmbeddingForward {L d maxL : ℕ} (hL : L ≤ maxL)
    (pe : Fin maxL → Fin d → ℝ) (x : Fin L → Fin d → ℝ) :
    Except PyError (Fin L → Fin d → ℝ) := do
  let sliced := fun (t : Fin L) (f : Fin d) => pe (Fin.castLE hL t) f
  let _ ← pyCallAttr peRequiresGrad
  Except.ok (fun t f => x t f + sliced t f)

/-- Claim C10: for every input and every slice bound, the sinusoidal
PositionalEmbedding.forward raises TypeError by calling the Bool attribute
requires_grad, so no forward pass through this front-end completes. -/
theorem positionalEmbeddingForward_raises :
    ∀ (L d maxL : ℕ) (hL : L ≤ maxL) (pe : Fin maxL → Fin d → ℝ)
      (x : Fin L → Fin d → ℝ),
      positionalEmbeddingForward hL pe x =
        Except.error PyError.typeErrorBoolNotCallable := by
  intro L d maxL hL pe x
  rfl

/-- Witness for C10 at L = 2, maxL = 8, d = 1, zero tensors. -/
theorem positionalEmbeddingForward_raises_witness :
    (2 ≤ 8) ∧
    positionalEmbeddingForward (by decide : (2 : ℕ) ≤ 8)
        (fun _ _ => (0 : ℝ) : Fin 8 → Fin 1 → ℝ)
        (fun _ _ => (0 : ℝ) : Fin 2 → Fin 1 → ℝ) =
      Except.error PyError.typeErrorBoolNotCallable :=
  ⟨by decide,
   positionalEmbeddingForward_raises 2 1 8 (by decide)
     (fun _ _ => (0 : ℝ)) (fun _ _ => (0 : ℝ))⟩

/-! ### Notebook 0: MultiHeadAttention.forward and FeedForward

MultiHeadAttention.__init__ builds num_heads Attention heads, each with
causal=False, and output_projection = Linear(num_heads * head_size,
feature_size). forward concatenates the head outputs along the feature axis
(indexed here by the pair (head, within-head feature)) and projects them.
FeedForward is Linear(n, 4n) then ReLU then Dropout (evaluation mode:
identity) then Linear(4n, n). -/

structure MHAParams (nh hs F : ℕ) where
  heads : Fin nh → AttentionParams F hs
  Wout : Fin F → Fin nh × Fin hs → ℝ
  bout : Fin F → ℝ

/-- MultiHeadAttention.forward: per-head Attention (constructed with
causal := false), concatenation along the feature axis, output projection. -/
noncomputable def multiHeadAttentionForward {B L nh hs F : ℕ} (P : MHAParams nh hs F)
    (mask : Option (Fin B → Fin L → Bool)) (x : Fin B → Fin L → Fin F → ℝ) :
    Fin B → Fin L → Fin F → ℝ :=
  fun b i =>
    linearF P.Wout P.bout
      (fun hd => attentionForward { P.heads hd.1 with causal := false } mask x b i hd.2)

structure FFParams (n : ℕ) where
  W1 : Fin (4 * n) → Fin n → ℝ
  b1 : Fin (4 * n) → ℝ
  W2 : Fin n → Fin (4 * n) → ℝ
  b2 : Fin n → ℝ

/-- FeedForward.forward with the default expansion factor 4; ReLU is
max with 0, dropout is evaluation-mode identity. -/
noncomputable def feedForward {n : ℕ} (P : FFParams n) (v : Fin n → ℝ) : Fin n → ℝ :=
  linearF P.W2 P.b2 (fun j => max (linearF P.W1 P.b1 v j) 0)

/-! ### Notebook 0: class TimeSeriesTransformer

__init__(n_embd, block_size, forecast_horizon) builds a learned positional
embedding table of block_size rows, input_projection = Linear(1, n_embd),
sa_heads = MultiHeadAttention(4, n_embd // 4, n_embd), ffwd =
FeedForward(n_embd) and output_projection = Linear(n_embd,
forecast_horizon). forward takes a (batch, T) scalar tensor with
1 ≤ T ≤ block_size (the embedding lookup needs T ≤ block_size and the
index -1 needs a nonempty sequence; we write T as Tp + 1), projects each
scalar, adds the positional rows, applies attention with no mask, the
feed-forward, projects every position to forecast_horizon outputs and
returns row -1, reshaped to (batch, forecast_horizon). -/

structure TSTParams (bs n Hrz : ℕ) where
  posTable : Fin bs → Fin n → ℝ
  Win : Fin n → ℝ
  bin : Fin n → ℝ
  sa : MHAParams 4 (n / 4) n
  ff : FFParams n
  Wout : Fin Hrz → Fin n → ℝ
  bout : Fin Hrz → ℝ

/-- The hidden state after input projection, positional addition,
self-attention and feed-forward, before the output projection. -/
noncomputable def tsHidden {B Tp bs n Hrz : ℕ} (P : TSTParams bs n Hrz)
    (hT : Tp + 1 ≤ bs) (x : Fin B → Fin (Tp + 1) → ℝ) :
    Fin B → Fin (Tp + 1) → Fin n → ℝ :=
  let emb := fun (b : Fin B) (t : Fin (Tp + 1)) (i : Fin n) => P.Win i * x b t + P.bin i
  let withPos := fun (b : Fin B) (t : Fin (Tp + 1)) (i : Fin n) =>
    emb b t i + P.posTable (Fin.castLE hT t) i
  let attnOut := multiHeadAttentionForward P.sa none withPos
  fun b t => feedForward P.ff (attnOut b t)

/-- TimeSeriesTransformer.forward as written: output_projection applied to
every position, then the slice output[:, -1, :] reshaped to
(batch, forecast_horizon). -/
noncomputable def tsTransformerForward {B Tp bs n Hrz : ℕ} (P : TSTParams bs n Hrz)
    (hT : Tp + 1 ≤ bs) (x : Fin B → Fin (Tp + 1) → ℝ) : Fin B → Fin Hrz → ℝ :=
  let output := fun (b : Fin B) (t : Fin (Tp + 1)) =>
    linearF P.Wout P.bout (tsHidden P hT x b t)
  fun b => output b (Fin.last Tp)

/-- The forecasting head as claim C8 words it: the output projection
applied to only the last sequence position of the hidden state, giving a
(batch, forecast_horizon) result. -/
noncomputable def tsForecastSpec {B Tp bs n Hrz : ℕ} (P : TSTParams bs n Hrz)
    (hT : Tp + 1 ≤ bs) (x : Fin B → Fin (Tp + 1) → ℝ) : Fin B → Fin Hrz → ℝ :=
  fun b => linearF P.Wout P.bout (tsHidden P hT x b (Fin.last Tp))

/-- Claim C8: for every batch size, window length within the block size,
parameters and input, the forecasting forward returns the (batch,
forecast_horizon) tensor obtained by applying the output projection to only
the last sequence position of the hidden state. -/
theorem tsForward_last_position :
    ∀ (B Tp bs n Hrz : ℕ) (hT : Tp + 1 ≤ bs) (P : TSTParams bs n Hrz)
      (x : Fin B → Fin (Tp + 1) → ℝ),
      tsTransformerForward P hT x = tsForecastSpec P hT x := by
  intro B Tp bs n Hrz hT P x
  rfl

/-- An all-zero TimeSeriesTransformer parameter set with block_size 8,
n_embd 4, forecast_horizon 2. -/
noncomputable def tstP0 : TSTParams 8 4 2 :=
  ⟨fun _ _ => 0, fun _ => 0, fun _ => 0,
   ⟨fun _ => ⟨fun _ _ => 0, fun _ _ => 0, fun _ _ => 0, false⟩,
    fun _ _ => 0, fun _ => 0⟩,
   ⟨fun _ _ => 0, fun _ => 0, fun _ _ => 0, fun _ => 0⟩,
   fun _ _ => 0, fun _ => 0⟩

/-- Witness for C8 at batch 1, window length 1 within block size 8. -/
theorem tsForward_last_position_witness :
    (0 + 1 ≤ 8) ∧
    tsTransformerForward tstP0 (by decide : 0 + 1 ≤ 8)
        (fun _ _ => (0 : ℝ) : Fin 1 → Fin 1 → ℝ) =
      tsForecastSpec tstP0 (by decide : 0 + 1 ≤ 8)
        (fun _ _ => (0 : ℝ) : Fin 1 → Fin 1 → ℝ) :=
  ⟨by decide,
   tsForward_last_position 1 0 8 4 2 (by decide) tstP0 (fun _ _ => (0 : ℝ))⟩

end TransformerModel
